import Mathlib

/-!
# Verification of the 69trading order lifecycle engine

A shallow embedding of the core order-lifecycle code of the repository:
`src/trading/order_manager.py`, `src/trading/position_manager.py`,
`src/trading/order_timeout_manager.py`, `src/api/websocket_handler.py`, with
the configuration constants of `src/config/settings.py` and the helpers of
`src/utils/helpers.py`.

Modelling conventions:
* Python floats are embedded as `Rat` (exact rational arithmetic).
* Python's `round(x, n)` (round-half-to-even) is embedded exactly on `Rat`.
* The mutable `self.orders` dict is an insertion-ordered association list
  `List (String × OrderRec)`; Python dict iteration order is insertion order.
* Python dict records with optional keys become structures with `Option`
  fields; where the source distinguishes a key that is absent from a key
  present with value `None`, the field is `Option (Option _)`.
* Exchange/database side effects are captured in a trace (`Effect`), and the
  exchange's responses are supplied by an `Env` of response functions.
* Exceptions in the source are always caught by a surrounding handler; the
  embedding returns the state/result the corresponding `except` branch
  produces, noted at each site.
-/

namespace Trading

/-! ## Configuration constants (src/config/settings.py) -/

def MIN_TP_PROFIT_PERCENTAGE : Rat := 45 / 10000

def TP_PERCENTAGE : Rat := 5 / 100

def STOP_LOSS_PERCENTAGE : Rat := 2 / 100

def ENABLE_STOP_LOSS : Bool := true

def DEFAULT_TP_MULTIPLIER : Rat := 1

def ORDER_TIMEOUT_MINUTES : Int := 45

def DEFAULT_PRECISION : Nat := 2

def SYMBOL_PRECISION : List (String × Nat) :=
  [("SOLUSDT", 2), ("BTCUSDT", 1), ("ETHUSDT", 2), ("WLDUSDC", 5),
   ("SOLUSDC", 2), ("BTCUSDC", 1), ("ETHUSDC", 2), ("BNBUSDC", 2)]

/-! ## Small helpers: Python string/rounding/assoc-list semantics -/

/-- Character-wise prefix test, the semantics of Python `str.startswith`. -/
def pyStartsWith (s pre : String) : Bool :=
  pre.data.isPrefixOf s.data

/-- Character-wise suffix test, the semantics of Python `str.endswith`. -/
def pyEndsWith (s suf : String) : Bool :=
  suf.data.isSuffixOf s.data

/-- Python slice `s[:n]`. -/
def strTake (s : String) (n : Nat) : String :=
  String.mk (s.data.take n)

/-- Python slice `s[-n:]` (whole string when shorter than `n`). -/
def strTakeRight (s : String) (n : Nat) : String :=
  String.mk (s.data.drop (s.data.length - n))

/-- Python `str.upper` (ASCII case only, which covers every id used here). -/
def pyUpper (s : String) : String :=
  String.mk (s.data.map Char.toUpper)

/-- Round to the nearest integer, ties to even: the rounding of Python's
built-in `round` on an exact value. -/
def roundHalfEven (x : Rat) : Int :=
  let f : Int := x.floor
  let frac : Rat := x - (f : Rat)
  if frac < 1 / 2 then f
  else if 1 / 2 < frac then f + 1
  else if f % 2 = 0 then f else f + 1

/-- Python `round(x, n)` on an exact rational. -/
def pyRound (x : Rat) (n : Nat) : Rat :=
  let m : Rat := (10 : Rat) ^ n
  ((roundHalfEven (x * m) : Int) : Rat) / m

/-- Truthiness of an optional string, as Python tests `if s:`. -/
def truthyStr : Option String → Bool
  | none => false
  | some s => !(s = "")

/-- Truthiness of an optional number, as Python tests `if x:`. -/
def truthyRat : Option Rat → Bool
  | none => false
  | some x => !(x = 0)

/-- Lookup in an insertion-ordered association list (Python `d[k]` / `k in d`). -/
def lookupA {α : Type} : List (String × α) → String → Option α
  | [], _ => none
  | (k, v) :: t, key => if k = key then some v else lookupA t key

/-- Write `d[k] = v`: replace in place when the key exists, else append
(Python dicts keep insertion order). -/
def alistSet {α : Type} : List (String × α) → String → α → List (String × α)
  | [], key, v => [(key, v)]
  | (k, w) :: t, key, v =>
    if k = key then (key, v) :: t else (k, w) :: alistSet t key v

/-- `get_symbol_precision` (src/utils/helpers.py line 19). -/
def get_symbol_precision (symbol : String) : Nat :=
  (lookupA SYMBOL_PRECISION symbol).getD DEFAULT_PRECISION

/-- `generate_order_id` (src/utils/helpers.py line 72), with the caller's
defaults `timestamp = int(time.time())`, `counter = 1` made explicit. -/
def generate_order_id (strategy_name symbol side : String) (timestamp : Nat)
    (counter : Nat) : String :=
  let short_strategy := if strategy_name.length > 3 then strTake strategy_name 3 else strategy_name
  let short_symbol := strTake symbol 6
  let side_char := if side = "BUY" then "B" else "S"
  let ts := Nat.repr (timestamp % 10000)
  let cid := short_strategy ++ "_" ++ short_symbol ++ "_" ++ side_char ++ ts ++ "_" ++ Nat.repr counter
  if cid.length > 30 then
    strTake short_strategy 2 ++ "_" ++ strTake symbol 4 ++ "_" ++ side_char ++ ts ++ "_" ++ Nat.repr counter
  else cid

/-! ## Data model

`OrderRec` embeds the per-order dict stored in `OrderManager.self.orders`.
Keys that some record shapes omit (and that the source reads with `.get`)
are `Option` fields with `none` for absent-or-`None`; `tp_multiplier` keeps
the Python `None` value distinct from an absent key only where the source
distinguishes them (see `EntryOrder`). -/

structure OrderRec where
  symbol : String
  side : String
  quantity : Rat
  price : Option Rat
  otype : String
  status : String
  entry_time : Nat
  fill_time : Option Nat := none
  filled_amount : Option Rat := none
  executed_qty : Option Rat := none
  actual_fill_price : Option Rat := none
  tp_placed : Bool := false
  sl_placed : Bool := false
  tp_client_id : Option String := none
  sl_client_id : Option String := none
  tp_price : Option Rat := none
  sl_price : Option Rat := none
  tp_price_offset : Option Rat := none
  atr : Option Rat := none
  tp_multiplier : Option Rat := none
  tp_percentage : Option Rat := none
  actual_tp_offset : Option Rat := none
  calculation_price : Option Rat := none
  final_is_add_position : Option Bool := none
  total_quantity : Option Rat := none
  is_add_position : Bool := false
  position_side : String := "BOTH"
  signal_type : Option String := none
  waiting_for_api_response : Bool := false
  created_from_websocket : Bool := false
  created_at : Option Nat := none
  sl_cancelled_by_tp : Bool := false
  tp_cancelled_by_sl : Bool := false
deriving DecidableEq, Repr

/-- The registry `self.orders`, an insertion-ordered dict. -/
def Orders : Type := List (String × OrderRec)

/-- `OrderManager` state: the registry plus the `processing_orders` set
(src/trading/order_manager.py lines 30 and 34). -/
structure OMState where
  orders : List (String × OrderRec)
  processing : List String
deriving DecidableEq, Repr

/-- The keyword arguments of `binance_client.place_order` as assembled by
`OrderManager.create_order` (order_manager.py lines 53-70). -/
structure OrderParams where
  symbol : String
  side : String
  order_type : String
  quantity : Rat
  position_side : String
  client_order_id : Option String
  price : Option Rat := none
  stop_price : Option Rat := none
  time_in_force : Option String := none
  good_till_date : Option Nat := none
deriving DecidableEq, Repr

/-- The order-info dict returned by the exchange gateway on a successful
`place_order` (the fields the order manager reads). -/
structure OrderResult where
  orderId : Nat
  status : String
  executedQty : Option Rat := none
  avgPrice : Option Rat := none
  price : Option Rat := none
  fills : List Rat := []
deriving DecidableEq, Repr

/-- Side effects issued to the exchange gateway and the database, in program
order.  `registryWrite` marks the creation of a fresh registry record (a
`self.orders[cid] = {...}` assignment) with its initial status;
`fillHandlerInvoked` marks the websocket handler's call into
`OrderManager.handle_order_filled`. -/
inductive Effect where
  | placeOrder (params : OrderParams)
  | cancelOrder (symbol cid : String)
  | registryWrite (cid status : String)
  | recordDb (cid : String)
  | recordResult (cid : String)
  | syncDb (cid : String)
  | fillHandlerInvoked (cid : String)
deriving DecidableEq, Repr

/-- The exchange/database responses the embedded code consumes.  `nowSec` is
`int(time.time())` for the single decision point being modelled. -/
structure Env where
  nowSec : Nat
  placeOrderResp : OrderParams → Option OrderResult
  cancelOrderResp : String → String → Option OrderResult
  openOrders : List String
  orderStatusById : String → Option String
  cancelByIdResp : String → Option OrderResult

/-- The `entry_order` dict assembled before `place_tp_order`
(order_manager.py lines 139-152 and 198-206).  `tp_multiplier` is
`Option (Option Rat)`: `none` means the key is absent (so
`.get('tp_multiplier', DEFAULT_TP_MULTIPLIER)` yields the default), while
`some none` means the key is present holding `None` (so the ATR product
raises `TypeError`, caught at order_manager.py line 345). -/
structure EntryOrder where
  symbol : String
  side : String
  quantity : Rat
  price : Rat
  client_order_id : String
  position_side : String
  tp_price_offset : Option Rat := none
  atr : Option Rat := none
  tp_multiplier : Option (Option Rat) := none
deriving DecidableEq, Repr

/-! ## OrderManager (src/trading/order_manager.py) -/

/-- `OrderManager._generate_tp_order_id` (line 513). -/
def generate_tp_order_id (nowSec : Nat) (original : String) : String :=
  original ++ "_" ++ strTakeRight (Nat.repr nowSec) 5 ++ "T"

/-- `OrderManager._generate_sl_order_id` (line 518). -/
def generate_sl_order_id (nowSec : Nat) (original : String) : String :=
  original ++ "_" ++ strTakeRight (Nat.repr nowSec) 5 ++ "S"

/-- `OrderManager._calculate_tp_offset` (lines 328-353).  The explicit
offset wins; else ATR×multiplier when the ATR value is a positive number
(the source's `str(atr).replace('.','',1).isdigit()` test rejects negative
values, and `if atr_value` rejects zero floats); else the default
percentage of the calculation price.  A `None` multiplier under a present
key makes the ATR product raise `TypeError`, which the source catches,
falling through to the default percentage. -/
def calculate_tp_offset (e : EntryOrder) (calculation_price : Rat) : Rat :=
  match e.tp_price_offset with
  | some o => o
  | none =>
    let viaAtr : Option Rat :=
      match e.atr with
      | some a =>
        if 0 < a then
          match e.tp_multiplier with
          | none => some (a * DEFAULT_TP_MULTIPLIER)
          | some (some m) => some (a * m)
          | some none => none
        else none
      | none => none
    match viaAtr with
    | some o => o
    | none => calculation_price * TP_PERCENTAGE

/-- `OrderManager.create_order` (lines 36-87): assemble the gateway
parameters (optional arguments are included only when truthy), place the
order, and clear a pending `waiting_for_api_response` flag when the
response arrives for a locally known order.  Returns the updated registry,
the gateway's response, and the trace. -/
def create_order (env : Env) (os : List (String × OrderRec))
    (symbol side order_type : String) (quantity : Rat)
    (price stop_price : Option Rat) (time_in_force : Option String)
    (good_till_date : Option Nat) (client_order_id : Option String)
    (position_side : String) :
    List (String × OrderRec) × Option OrderResult × List Effect :=
  let params : OrderParams :=
    { symbol := symbol, side := side, order_type := order_type,
      quantity := quantity, position_side := position_side,
      client_order_id := client_order_id,
      price := match price with
        | some p => if p = 0 then none else some p
        | none => none,
      stop_price := match stop_price with
        | some p => if p = 0 then none else some p
        | none => none,
      time_in_force := match time_in_force with
        | some t => if t = "" then none else some t
        | none => none,
      good_till_date := match good_till_date with
        | some g => if g = 0 then none else some g
        | none => none }
  let res := env.placeOrderResp params
  let os1 :=
    match client_order_id with
    | some cid =>
      match lookupA os cid with
      | some r =>
        if res.isSome && r.waiting_for_api_response then
          alistSet os cid { r with waiting_for_api_response := false }
        else os
      | none => os
    | none => os
  (os1, res, [Effect.placeOrder params])

/-- `OrderManager.place_sl_order` (lines 355-441).  Skips when the record
already carries a truthy `sl_client_id`; on a successful gateway response
records the stop order in the database and stores the back-reference. -/
def place_sl_order (env : Env) (os : List (String × OrderRec)) (entry : EntryOrder)
    (calculation_price_arg actual_quantity_arg : Option Rat) :
    List (String × OrderRec) × List Effect :=
  let cid := entry.client_order_id
  let calculation_price := calculation_price_arg.getD entry.price
  let actual_quantity := actual_quantity_arg.getD entry.quantity
  let skip :=
    match lookupA os cid with
    | some r => truthyStr r.sl_client_id
    | none => false
  if skip then (os, [])
  else
    let precision := get_symbol_precision entry.symbol
    let sl_price_offset := calculation_price * STOP_LOSS_PERCENTAGE
    let sl_price :=
      if entry.side = "BUY" then pyRound (calculation_price - sl_price_offset) precision
      else pyRound (calculation_price + sl_price_offset) precision
    let sl_side := if entry.side = "BUY" then "SELL" else "BUY"
    let sl_client_id := generate_sl_order_id env.nowSec cid
    let out := create_order env os entry.symbol sl_side "STOP_MARKET" actual_quantity
      none (some sl_price) none none (some sl_client_id) entry.position_side
    let os1 := out.1
    let res := out.2.1
    let effs1 := out.2.2
    let effs2 := if res.isSome then effs1 ++ [Effect.recordDb sl_client_id] else effs1
    let os2 :=
      match lookupA os1 cid with
      | some r =>
        if res.isSome then
          alistSet os1 cid
            { r with sl_client_id := some sl_client_id, sl_price := some sl_price,
                     sl_placed := true }
        else os1
      | none => os1
    (os2, effs2)

/-- `OrderManager.place_tp_order` (lines 213-326).  Skips when the record is
already `tp_placed`.  In the add-position branch the source calls
`position_manager.get_average_cost`, a method `PositionManager` does not
define; the resulting `AttributeError` is swallowed by the function's own
`except` (line 324), so that branch places nothing and changes nothing.
Otherwise prices one LIMIT take-profit from the entry price, updates the
record, and (stop-loss enabled) chains into `place_sl_order`. -/
def place_tp_order (env : Env) (os : List (String × OrderRec)) (entry : EntryOrder)
    (is_add_position : Bool) : List (String × OrderRec) × List Effect :=
  let cid := entry.client_order_id
  let skip :=
    match lookupA os cid with
    | some r => r.tp_placed
    | none => false
  if skip then (os, [])
  else if is_add_position then (os, [])
  else
    let calculation_price := entry.price
    let actual_quantity := entry.quantity
    let tp_price_offset := calculate_tp_offset entry calculation_price
    let precision := get_symbol_precision entry.symbol
    let tp_price :=
      if entry.side = "BUY" then pyRound (calculation_price + tp_price_offset) precision
      else pyRound (calculation_price - tp_price_offset) precision
    let tp_side := if entry.side = "BUY" then "SELL" else "BUY"
    let tp_client_id := generate_tp_order_id env.nowSec cid
    let out := create_order env os entry.symbol tp_side "LIMIT" actual_quantity
      (some tp_price) none (some "GTC") none (some tp_client_id) entry.position_side
    let os1 := out.1
    let res := out.2.1
    let effs1 := out.2.2
    let effs2 := if res.isSome then effs1 ++ [Effect.recordDb tp_client_id] else effs1
    let os2 :=
      match lookupA os1 cid with
      | some r =>
        let r1 :=
          if res.isSome then
            { r with tp_placed := true, tp_client_id := some tp_client_id,
                     tp_price := some tp_price,
                     calculation_price := some calculation_price,
                     final_is_add_position := some is_add_position,
                     total_quantity := some actual_quantity,
                     actual_tp_offset := some tp_price_offset }
          else { r with tp_placed := false, actual_tp_offset := some tp_price_offset }
        alistSet os1 cid r1
      | none => os1
    if ENABLE_STOP_LOSS then
      let out2 := place_sl_order env os2 entry (some calculation_price) (some actual_quantity)
      (out2.1, effs2 ++ out2.2)
    else (os2, effs2)

/-- The temporary registry record created when a fill notification arrives
for an order the registry does not know (order_manager.py lines 161-173). -/
def earlyFillRecord (env : Env) (symbol side : String) (quantity price : Rat)
    (order_type : String) (is_add_position : Bool) : OrderRec :=
  { symbol := symbol, side := side, quantity := quantity, price := some price,
    otype := order_type, status := "FILLED", entry_time := env.nowSec,
    tp_placed := false, waiting_for_api_response := true,
    created_at := some env.nowSec, is_add_position := is_add_position }

/-- The body of `OrderManager.handle_order_filled` inside the processing
guard (lines 112-177), acting on the registry only: update a known record
and chain into `place_tp_order`, or create a temporary record and run
`_handle_early_websocket_fill` (lines 188-211), whose conservative offset
is 2% of the price when the price is truthy, else 100. -/
def handle_order_filled_core (env : Env) (os : List (String × OrderRec))
    (cid symbol side order_type : String) (price quantity executed_qty : Rat)
    (position_side : String) (is_add_position : Bool) :
    List (String × OrderRec) × List Effect :=
  match lookupA os cid with
  | some r =>
    if r.status = "FILLED" && r.tp_placed then (os, [])
    else
      let r1 :=
        { r with status := "FILLED", filled_amount := some executed_qty,
                 fill_time := some env.nowSec, actual_fill_price := some price,
                 is_add_position := is_add_position }
      let os1 := alistSet os cid r1
      let entry : EntryOrder :=
        { symbol := symbol, side := side, quantity := quantity, price := price,
          client_order_id := cid, position_side := position_side,
          tp_price_offset := r1.tp_price_offset, atr := r1.atr,
          tp_multiplier := some r1.tp_multiplier }
      place_tp_order env os1 entry is_add_position
  | none =>
    let temp := earlyFillRecord env symbol side quantity price order_type is_add_position
    let os1 := alistSet os cid temp
    let conservative : Rat := if price = 0 then 100 else price * (2 / 100)
    let entry : EntryOrder :=
      { symbol := symbol, side := side, quantity := quantity, price := price,
        client_order_id := cid, position_side := position_side,
        tp_price_offset := some conservative }
    let out := place_tp_order env os1 entry is_add_position
    (out.1, Effect.registryWrite cid "FILLED" :: out.2)

/-- `OrderManager.handle_order_filled` (lines 89-186): the processing-set
reentrancy guard around `handle_order_filled_core`.  The guard entry is
removed on every exit path (`finally` at line 178 and the `except` at
line 186), which the single erase after the core models. -/
def handle_order_filled (env : Env) (st : OMState)
    (cid symbol side order_type : String) (price quantity executed_qty : Rat)
    (position_side : String) (is_add_position : Bool) : OMState × List Effect :=
  if st.processing.contains cid then (st, [])
  else
    let out := handle_order_filled_core env st.orders cid symbol side order_type
      price quantity executed_qty position_side is_add_position
    (⟨out.1, ((cid :: st.processing).erase cid)⟩, out.2)

/-- The match test of the `handle_tp_filled` loop (line 526): a record whose
truthy `tp_client_id`'s first 20 characters prefix the filled id. -/
def tpSiblingMatch (tp_filled_id : String) (pr : String × OrderRec) : Bool :=
  match pr.2.tp_client_id with
  | some t => !(t = "") && pyStartsWith tp_filled_id (strTake t 20)
  | none => false

/-- The match test of the `handle_sl_filled` loop (line 561). -/
def slSiblingMatch (sl_filled_id : String) (pr : String × OrderRec) : Bool :=
  match pr.2.sl_client_id with
  | some s => !(s = "") && pyStartsWith sl_filled_id (strTake s 20)
  | none => false

/-- `OrderManager.handle_tp_filled` (lines 523-556): on the first matching
record, persist the trading result, set status `TP_FILLED`, then cancel the
sibling stop-loss; only a successful cancellation clears `sl_placed` and
marks `sl_cancelled_by_tp` — a failed cancellation is logged and the flags
are left alone. -/
def handle_tp_filled (env : Env) (os : List (String × OrderRec))
    (tp_filled_id : String) : List (String × OrderRec) × List Effect :=
  match os.find? (tpSiblingMatch tp_filled_id) with
  | none => (os, [])
  | some (oid, r) =>
    let r1 := { r with status := "TP_FILLED" }
    match r.sl_client_id with
    | some s =>
      if s = "" then (alistSet os oid r1, [Effect.recordResult oid])
      else
        let res := env.cancelOrderResp r.symbol s
        let r2 :=
          if res.isSome then { r1 with sl_placed := false, sl_cancelled_by_tp := true }
          else r1
        (alistSet os oid r2, [Effect.recordResult oid, Effect.cancelOrder r.symbol s])
    | none => (alistSet os oid r1, [Effect.recordResult oid])

/-- `OrderManager.handle_sl_filled` (lines 558-591), the mirror image:
status `SL_FILLED`, cancel the sibling take-profit, and only a successful
cancellation clears `tp_placed` and marks `tp_cancelled_by_sl`. -/
def handle_sl_filled (env : Env) (os : List (String × OrderRec))
    (sl_filled_id : String) : List (String × OrderRec) × List Effect :=
  match os.find? (slSiblingMatch sl_filled_id) with
  | none => (os, [])
  | some (oid, r) =>
    let r1 := { r with status := "SL_FILLED" }
    match r.tp_client_id with
    | some t =>
      if t = "" then (alistSet os oid r1, [Effect.recordResult oid])
      else
        let res := env.cancelOrderResp r.symbol t
        let r2 :=
          if res.isSome then { r1 with tp_placed := false, tp_cancelled_by_sl := true }
          else r1
        (alistSet os oid r2, [Effect.recordResult oid, Effect.cancelOrder r.symbol t])
    | none => (alistSet os oid r1, [Effect.recordResult oid])

/-- `OrderManager.update_order_status` (lines 716-722). -/
def update_order_status (os : List (String × OrderRec)) (cid status : String)
    (executed_qty : Option Rat) : List (String × OrderRec) :=
  match lookupA os cid with
  | some r =>
    let r1 := { r with status := status }
    let r2 :=
      match executed_qty with
      | some q => { r1 with executed_qty := some q }
      | none => r1
    alistSet os cid r2
  | none => os

/-- One step of `cancel_existing_tp_orders_for_symbol` (lines 724-747):
cancel a matching record's take-profit, clearing `tp_placed` only when the
gateway confirms. -/
def cancelTpStep (env : Env) (symbol : String) (pr : String × OrderRec) :
    (String × OrderRec) × List Effect × Nat :=
  let r := pr.2
  match r.tp_client_id with
  | some t =>
    if r.symbol = symbol && !(t = "") && r.tp_placed then
      if (env.cancelOrderResp symbol t).isSome then
        ((pr.1, { r with tp_placed := false }), [Effect.cancelOrder symbol t], 1)
      else (pr, [Effect.cancelOrder symbol t], 0)
    else (pr, [], 0)
  | none => (pr, [], 0)

/-- `OrderManager.cancel_existing_tp_orders_for_symbol` (lines 724-747). -/
def cancel_existing_tp_orders_for_symbol (env : Env) (symbol : String) :
    List (String × OrderRec) → List (String × OrderRec) × List Effect × Nat
  | [] => ([], [], 0)
  | pr :: t =>
    let hd := cancelTpStep env symbol pr
    let rest := cancel_existing_tp_orders_for_symbol env symbol t
    (hd.1 :: rest.1, hd.2.1 ++ rest.2.1, hd.2.2 + rest.2.2)

/-- One step of `cancel_existing_sl_orders_for_symbol` (lines 749-772). -/
def cancelSlStep (env : Env) (symbol : String) (pr : String × OrderRec) :
    (String × OrderRec) × List Effect × Nat :=
  let r := pr.2
  match r.sl_client_id with
  | some s =>
    if r.symbol = symbol && !(s = "") && r.sl_placed then
      if (env.cancelOrderResp symbol s).isSome then
        ((pr.1, { r with sl_placed := false }), [Effect.cancelOrder symbol s], 1)
      else (pr, [Effect.cancelOrder symbol s], 0)
    else (pr, [], 0)
  | none => (pr, [], 0)

/-- `OrderManager.cancel_existing_sl_orders_for_symbol` (lines 749-772). -/
def cancel_existing_sl_orders_for_symbol (env : Env) (symbol : String) :
    List (String × OrderRec) → List (String × OrderRec) × List Effect × Nat
  | [] => ([], [], 0)
  | pr :: t =>
    let hd := cancelSlStep env symbol pr
    let rest := cancel_existing_sl_orders_for_symbol env symbol t
    (hd.1 :: rest.1, hd.2.1 ++ rest.2.1, hd.2.2 + rest.2.2)

/-! ## Entry submission (order_manager.py lines 890-1064)

`parsed_signal` as assembled by the signal processor (signal_processor.py
line 556): every key is present, `strategy_name` possibly holding `None` —
in which case `generate_order_id` raises `TypeError` on `len(None)` before
any side effect, and the handler's `except` returns an error result. -/

structure Signal where
  symbol : String
  side : String
  quantity : Rat
  price : Option Rat := none
  order_type : Option String := none
  strategy_name : Option String := none
  signal_type : Option String := none
  atr : Option Rat := none
  tp_multiplier : Option Rat := none
deriving DecidableEq, Repr

/-- The result dict returned by the submission handlers. -/
structure SubmitResult where
  status : String
  message : Option String := none
  client_order_id : Option String := none
  binance_order_id : Option Nat := none
  quantity : Option Rat := none
  filled_price : Option Rat := none
  order_type : String
  tp_percentage : Option Rat := none
  is_add_position : Option Bool := none
deriving DecidableEq, Repr

/-- `OrderManager._extract_fill_price` (lines 1066-1083). -/
def extract_fill_price (res : OrderResult) : Rat :=
  match res.fills with
  | f :: _ => f
  | [] =>
    let viaAvg : Rat :=
      match res.avgPrice with
      | some a => if 0 < a then a else 0
      | none => 0
    match res.price with
    | some p => if 0 < p then p else viaAvg
    | none => viaAvg

/-- Did the gateway response mean success for a submission handler
(`status in ['FILLED', 'NEW', 'PARTIALLY_FILLED']`, lines 859/955/1032)? -/
def submitOk (res : Option OrderResult) : Bool :=
  match res with
  | some r => r.status = "FILLED" || r.status = "NEW" || r.status = "PARTIALLY_FILLED"
  | none => false

/-- The PENDING registry record pre-written by `handle_new_position_order`
(lines 916-932). -/
def pendingRecord (env : Env) (sig : Signal) (order_type : String)
    (tp_percentage : Rat) : OrderRec :=
  { symbol := sig.symbol, side := pyUpper sig.side, quantity := sig.quantity,
    price := sig.price, otype := order_type, status := "PENDING",
    entry_time := env.nowSec, tp_placed := false, sl_placed := false,
    tp_percentage := some tp_percentage, position_side := "BOTH",
    atr := sig.atr, tp_multiplier := sig.tp_multiplier,
    waiting_for_api_response := true, created_at := some env.nowSec }

/-- `OrderManager.handle_new_position_order` (lines 890-985): pre-register a
PENDING record, then place the entry through `create_order`; a limit order
with a truthy price carries the price and GTC. -/
def handle_new_position_order (env : Env) (st : OMState) (sig : Signal)
    (tp_percentage : Rat) : SubmitResult × OMState × List Effect :=
  match sig.strategy_name with
  | none =>
    ({ status := "error", message := some "TypeError", order_type := "UNKNOWN" }, st, [])
  | some strat =>
    let cid := generate_order_id strat sig.symbol sig.side env.nowSec 1
    let order_type := pyUpper (sig.order_type.getD "MARKET")
    let os1 := alistSet st.orders cid (pendingRecord env sig order_type tp_percentage)
    let isLimit := order_type = "LIMIT" && truthyRat sig.price
    let out := create_order env os1 sig.symbol (pyUpper sig.side) order_type sig.quantity
      (if isLimit then sig.price else none) none
      (if isLimit then some "GTC" else none) none (some cid) "BOTH"
    let os2 := out.1
    let res := out.2.1
    let effs := Effect.registryWrite cid "PENDING" :: out.2.2
    let result :=
      if submitOk res then
        { status := "success", client_order_id := some cid,
          binance_order_id := res.map (·.orderId),
          quantity := some (((res.map (·.executedQty)).join).getD sig.quantity),
          filled_price := res.map extract_fill_price,
          order_type := order_type, tp_percentage := some tp_percentage :
          SubmitResult }
      else
        { status := "error",
          message := some (order_type ++ " order execution failed"),
          client_order_id := some cid, order_type := order_type }
    (result, ⟨os2, st.processing⟩, effs)

/-- `OrderManager.handle_add_position_order` (lines 987-1064): identical
submission flow except that no registry record is written at all. -/
def handle_add_position_order (env : Env) (st : OMState) (sig : Signal)
    (tp_percentage : Rat) : SubmitResult × OMState × List Effect :=
  match sig.strategy_name with
  | none =>
    ({ status := "error", message := some "TypeError", order_type := "UNKNOWN",
       is_add_position := some true }, st, [])
  | some strat =>
    let cid := generate_order_id strat sig.symbol sig.side env.nowSec 1
    let order_type := pyUpper (sig.order_type.getD "MARKET")
    let isLimit := order_type = "LIMIT" && truthyRat sig.price
    let out := create_order env st.orders sig.symbol (pyUpper sig.side) order_type sig.quantity
      (if isLimit then sig.price else none) none
      (if isLimit then some "GTC" else none) none (some cid) "BOTH"
    let os2 := out.1
    let res := out.2.1
    let effs := out.2.2
    let result :=
      if submitOk res then
        { status := "success", client_order_id := some cid,
          binance_order_id := res.map (·.orderId),
          quantity := some (((res.map (·.executedQty)).join).getD sig.quantity),
          filled_price := res.map extract_fill_price,
          order_type := order_type, is_add_position := some true :
          SubmitResult }
      else
        { status := "error",
          message := some (order_type ++ " add position order execution failed"),
          client_order_id := some cid, order_type := order_type,
          is_add_position := some true }
    (result, ⟨os2, st.processing⟩, effs)

/-! ## PositionManager (src/trading/position_manager.py) -/

/-- One entry of the positions dict returned by
`binance_client.get_current_positions`. -/
structure PosInfo where
  positionAmt : Rat
  entryPrice : Rat
deriving DecidableEq, Repr

/-- `PositionManager` instance state: `self._last_query_positions`, mapping
a symbol to the last recorded (amount, timestamp). -/
structure PMState where
  last_query_positions : List (String × (Rat × Nat))
deriving DecidableEq, Repr

/-- The value triple `(average_cost, total_quantity, ok)`. -/
structure AvgCostResult where
  average_cost : Rat
  total_quantity : Rat
  ok : Bool
deriving DecidableEq, Repr

/-- `PositionManager.calculate_average_cost_and_quantity` (lines 22-137).
`first_query`/`second_query` are the two position reads taken 0.5s apart;
`nowSec` is `time.time()` at the decision point.  Mirrors, in order: the
missing-symbol bail-out, the double-read consistency check (tolerance
0.001, conservative `min` on mismatch), the short-window doubling heuristic
against the previously recorded quantity, the recording of the current
quantity, the 5x total-quantity sanity clamp, and the weighted average.  A
zero total quantity raises `ZeroDivisionError`, caught by the function's
`except`, which returns the fallback triple (the state write at line 98 has
already happened). -/
def calculate_average_cost_and_quantity
    (first_query second_query : List (String × PosInfo)) (nowSec : Nat)
    (pm : PMState) (symbol : String) (new_price new_quantity : Rat) :
    AvgCostResult × PMState :=
  match lookupA first_query symbol, lookupA second_query symbol with
  | some p1, some p2 =>
    let first_amt := |p1.positionAmt|
    let second_amt := |p2.positionAmt|
    let current_quantity0 :=
      if 1 / 1000 < |first_amt - second_amt| then min first_amt second_amt
      else second_amt
    let expected_new_qty := new_quantity
    let current_quantity :=
      match lookupA pm.last_query_positions symbol with
      | some lastRec =>
        let last_amt := lastRec.1
        let time_diff := nowSec - lastRec.2
        if last_amt * (18 / 10) < current_quantity0 && time_diff < 600 &&
            expected_new_qty * 2 < current_quantity0 then
          last_amt + expected_new_qty
        else current_quantity0
      | none => current_quantity0
    let pm1 : PMState :=
      ⟨alistSet pm.last_query_positions symbol (current_quantity, nowSec)⟩
    let current_avg_price := p2.entryPrice
    let total_quantity0 := current_quantity + expected_new_qty
    let clamp := expected_new_qty * 5 < total_quantity0
    let total_quantity := if clamp then expected_new_qty * 2 else total_quantity0
    let used_quantity := if clamp then expected_new_qty else current_quantity
    if total_quantity = 0 then
      (⟨new_price, new_quantity, false⟩, pm1)
    else
      let total_cost := used_quantity * current_avg_price + expected_new_qty * new_price
      (⟨total_cost / total_quantity, total_quantity, true⟩, pm1)
  | _, _ => (⟨new_price, new_quantity, false⟩, pm)

/-! ## OrderTimeoutManager (src/trading/order_timeout_manager.py)

The timeout manager imports `get_strategy_timeout` from `config.settings`,
where no such function is defined in the source tree; the per-strategy
timeout lookup is therefore passed in as a function parameter
`strategy_timeout`, and the claims quantify over its value. -/

/-- `OrderTimeoutManager._is_order_timeout` (lines 131-169): an order is
timed out when the current time is strictly past the entry time plus the
per-strategy timeout plus a 30-second buffer.  Times are seconds; a missing
entry time (and any parse error) yields `false`. -/
def is_order_timeout (strategy_timeout : Option String → Int)
    (entry_time : Option Int) (signal_type : Option String)
    (current_time : Int) : Bool :=
  match entry_time with
  | none => false
  | some t =>
    let timeout_minutes := strategy_timeout signal_type
    decide (t + timeout_minutes * 60 + 30 < current_time)

/-- `OrderTimeoutManager._should_check_order` (lines 95-129). -/
def should_check_order (order_id : String) (status : String)
    (entry_time : Option Int) : Bool :=
  pyStartsWith order_id "V69_" &&
  (pyUpper status = "NEW" || pyUpper status = "PARTIALLY_FILLED") &&
  !(pyEndsWith order_id "T") && !(pyEndsWith order_id "S") &&
  entry_time.isSome

/-! ## WebSocketManager (src/api/websocket_handler.py)

Price fields of an `ORDER_TRADE_UPDATE` event arrive as strings; `PyStr`
keeps the three cases the handler distinguishes: the empty string (falsy;
`float` would raise), a non-empty string that `float` rejects, and a
numeric value.  Quantities (`q`, `z`) are always numeric on the wire and
are embedded as `Rat` directly. -/

inductive PyStr where
  | empty
  | nonNumeric
  | num (v : Rat)
deriving DecidableEq, Repr

/-- Python truthiness of the string (`""` is falsy). -/
def PyStr.truthy : PyStr → Bool
  | .empty => false
  | _ => true

/-- The fields of the `o` payload of an `ORDER_TRADE_UPDATE` event that
`on_message` reads (websocket_handler.py lines 103-115). -/
structure WsOrderData where
  c : String
  X : String
  s : String
  S : String
  o : String
  q : Rat
  z : Rat
  ap : PyStr := PyStr.num 0
  p : PyStr := PyStr.num 0
  L : PyStr := PyStr.num 0
  ps : Option String := none
deriving DecidableEq, Repr

/-- The smart price selection of `on_message` (lines 117-126): the average
fill price when truthy and positive, else the last trade price when truthy
and positive, else the limit price.  `float` on a non-numeric truthy string
raises `ValueError`, which aborts the whole message handler (`.error`). -/
def select_price (ap L p : PyStr) : Except Unit PyStr :=
  match ap with
  | .nonNumeric => .error ()
  | .num a =>
    if 0 < a then .ok (.num a)
    else
      match L with
      | .nonNumeric => .error ()
      | .num l => if 0 < l then .ok (.num l) else .ok p
      | .empty => .ok p
  | .empty =>
    match L with
    | .nonNumeric => .error ()
    | .num l => if 0 < l then .ok (.num l) else .ok p
    | .empty => .ok p

/-- `WebSocketManager._cancel_order_safe` (lines 333-365): cancel only an
order the gateway still reports as open; an absent or already-done order is
treated as success. -/
def cancel_order_safe (env : Env) (order_id : String) : Bool × List Effect :=
  match env.orderStatusById order_id with
  | some st =>
    if st = "NEW" || st = "PARTIALLY_FILLED" then
      (true, [Effect.cancelOrder "" order_id])
    else (true, [])
  | none => (true, [])

/-- `WebSocketManager._cancel_partner_order` (lines 293-331): rebuild the
group prefix from the completed id (at least 4 `_`-separated parts) and
cancel the first open order of the partner suffix under that prefix. -/
def cancel_partner_order (env : Env) (completed_order_id : String)
    (partner_suffix : String) : List Effect :=
  if pyEndsWith completed_order_id "T" || pyEndsWith completed_order_id "S" then
    let parts := completed_order_id.splitOn "_"
    if 4 ≤ parts.length then
      let prefixStr := String.intercalate "_" (parts.dropLast)
      match env.openOrders.find? (fun oid =>
          pyStartsWith oid prefixStr && pyEndsWith oid partner_suffix) with
      | some oid => (cancel_order_safe env oid).2
      | none => []
    else []
  else []

/-- `WebSocketManager._handle_tp_sl_completion` (lines 269-291). -/
def handle_tp_sl_completion (env : Env) (order_id order_status : String) :
    List Effect :=
  if !(order_status = "FILLED") then []
  else if pyEndsWith order_id "T" then cancel_partner_order env order_id "S"
  else if pyEndsWith order_id "S" then cancel_partner_order env order_id "T"
  else []

/-- `WebSocketManager._validate_order_record_relaxed` (lines 371-403).  In
the embedding `symbol`, `side` and `quantity` are always present and
numeric; a record whose `price` is `None` fails the `float(price)`
conversion (`TypeError`), so validation reduces to the price being
present. -/
def validate_order_record_relaxed (r : OrderRec) : Bool :=
  r.price.isSome

/-- The temporary registry record `on_message` creates after the retry loop
fails to find a local record (lines 186-199). -/
def wsTempRecord (env : Env) (ev : WsOrderData) (price : Rat) : OrderRec :=
  { symbol := ev.s, side := ev.S, quantity := ev.z, price := some price,
    otype := "UNKNOWN", status := "FILLED", entry_time := env.nowSec,
    tp_placed := false, sl_placed := false, position_side := "BOTH",
    created_from_websocket := true, created_at := some env.nowSec }

/-- The tail of `on_message` shared by every non-returning path (lines
248-259): the status/database sync for system orders, then the take-profit
and stop-loss fill handlers. -/
def on_message_tail (env : Env) (st : OMState) (effs : List Effect)
    (ev : WsOrderData) : OMState × List Effect :=
  let sync :=
    if pyStartsWith ev.c "V69_" then
      (update_order_status st.orders ev.c ev.X (some ev.z), [Effect.syncDb ev.c])
    else (st.orders, ([] : List Effect))
  let tp :=
    if ev.X = "FILLED" && pyEndsWith ev.c "T" then handle_tp_filled env sync.1 ev.c
    else (sync.1, [])
  let sl :=
    if ev.X = "FILLED" && pyEndsWith ev.c "S" then handle_sl_filled env tp.1 ev.c
    else (tp.1, [])
  (⟨sl.1, st.processing⟩, effs ++ sync.2 ++ tp.2 ++ sl.2)

/-- `WebSocketManager.on_message` for an `ORDER_TRADE_UPDATE` event (lines
96-263).  A `ValueError` in the price selection aborts the whole handler
(caught at line 261).  For an entry (no T/S suffix) that is FILLED: reject
foreign ids, abort on a non-positive or non-numeric selected price, fall
back to a temporary record when the registry has none (the bounded retry
loop re-reads an unchanged registry in this sequential model), validate the
record, skip already-processed fills, cancel existing TP/SL on an add, and
invoke `handle_order_filled`; every early `return` skips the shared tail. -/
def on_message (env : Env) (st : OMState) (ev : WsOrderData) : OMState × List Effect :=
  match select_price ev.ap ev.L ev.p with
  | .error _ => (st, [])
  | .ok chosen =>
    let effs1 := handle_tp_sl_completion env ev.c ev.X
    let is_tp := pyEndsWith ev.c "T"
    let is_sl := pyEndsWith ev.c "S"
    if ev.X = "FILLED" && !is_tp && !is_sl then
      if !(pyStartsWith ev.c "V69_") then (st, effs1)
      else
        match chosen with
        | .empty => (st, effs1)
        | .nonNumeric => (st, effs1)
        | .num v =>
          if v ≤ 0 then (st, effs1)
          else
            let found :=
              if (lookupA st.orders ev.c).isSome then (st.orders, ([] : List Effect))
              else (alistSet st.orders ev.c (wsTempRecord env ev v),
                    [Effect.registryWrite ev.c "FILLED"])
            match lookupA found.1 ev.c with
            | none => (⟨found.1, st.processing⟩, effs1 ++ found.2)
            | some r =>
              if !(validate_order_record_relaxed r) then
                (⟨found.1, st.processing⟩, effs1 ++ found.2)
              else if r.status = "FILLED" && r.tp_placed then
                (⟨found.1, st.processing⟩, effs1 ++ found.2)
              else
                let is_add := r.is_add_position
                let pre :=
                  if is_add then
                    let a := cancel_existing_tp_orders_for_symbol env ev.s found.1
                    let b := cancel_existing_sl_orders_for_symbol env ev.s a.1
                    (b.1, a.2.1 ++ b.2.1)
                  else (found.1, ([] : List Effect))
                let fill := handle_order_filled env ⟨pre.1, st.processing⟩ ev.c ev.s ev.S
                  ev.o v ev.q ev.z (ev.ps.getD "BOTH") is_add
                on_message_tail env fill.1
                  (effs1 ++ found.2 ++ pre.2 ++
                    (Effect.fillHandlerInvoked ev.c :: fill.2)) ev
    else
      on_message_tail env st effs1 ev

/-! ## Claim-side predicates on traces -/

/-- Is the effect a gateway order placement? -/
def Effect.isPlace : Effect → Bool
  | .placeOrder _ => true
  | _ => false

/-- A take-profit placement: the LIMIT order issued by `place_tp_order`. -/
def Effect.isTpPlace : Effect → Bool
  | .placeOrder p => p.order_type = "LIMIT"
  | _ => false

/-- A stop-loss placement: the STOP_MARKET order issued by `place_sl_order`. -/
def Effect.isSlPlace : Effect → Bool
  | .placeOrder p => p.order_type = "STOP_MARKET"
  | _ => false

/-- A fresh registry-record write. -/
def Effect.isRegWrite : Effect → Bool
  | .registryWrite _ _ => true
  | _ => false

/-- An invocation of `OrderManager.handle_order_filled` by the stream
handler. -/
def Effect.isFillInvoke : Effect → Bool
  | .fillHandlerInvoked _ => true
  | _ => false

/-- The selected fill price counts as invalid for the stream handler's
validity gate: a `float` failure (selection raised, or empty, or
non-numeric) or a non-positive value. -/
def chosenPriceInvalid : Except Unit PyStr → Bool
  | .error _ => true
  | .ok .empty => true
  | .ok .nonNumeric => true
  | .ok (.num v) => v ≤ 0

/-! ## Concrete fixtures used by witnesses and counterexamples -/

/-- A gateway environment whose placements succeed and whose cancellations
succeed. -/
def envOk : Env :=
  { nowSec := 1700001234,
    placeOrderResp := fun p => some { orderId := 7, status := "NEW", price := p.price },
    cancelOrderResp := fun _ _ => some { orderId := 8, status := "CANCELED" },
    openOrders := [], orderStatusById := fun _ => none,
    cancelByIdResp := fun _ => none }

/-- An environment whose cancellations fail (order already gone: the
gateway returns `None`). -/
def envCancelFail : Env :=
  { envOk with cancelOrderResp := fun _ _ => none }

/-- A freshly submitted entry record awaiting its fill. -/
def recNew : OrderRec :=
  { symbol := "BTCUSDT", side := "BUY", quantity := 1, price := some 100,
    otype := "LIMIT", status := "NEW", entry_time := 0 }

/-- A filled entry carrying both exit back-references. -/
def recFilledWithExits : OrderRec :=
  { recNew with
    status := "FILLED",
    tp_placed := true,
    sl_placed := true,
    tp_client_id := some "V69_BTCUSD_B1234_1_01234T",
    sl_client_id := some "V69_BTCUSD_B1234_1_01234S" }

/-- A one-entry registry holding `recNew`. -/
def stNew : OMState := ⟨[("V69_BTCUSD_B1234_1", recNew)], []⟩

/-- A concrete inbound signal. -/
def sigLimit : Signal :=
  { symbol := "BTCUSDT",
    side := "BUY",
    quantity := 1,
    price := some 100,
    order_type := some "LIMIT",
    strategy_name := some "V69master" }

/-- A FILLED entry event from a foreign (non-`V69_`) order id. -/
def evForeign : WsOrderData :=
  { c := "manual123", X := "FILLED", s := "BTCUSDT", S := "BUY",
    o := "LIMIT", q := 1, z := 1, ap := .num 100, p := .num 100, L := .num 100 }

/-- A FILLED entry event whose every price field is zero. -/
def evZeroPrice : WsOrderData :=
  { c := "V69_BTCUSD_B1234_1", X := "FILLED", s := "BTCUSDT", S := "BUY",
    o := "LIMIT", q := 1, z := 1, ap := .num 0, p := .num 0, L := .num 0 }

/-! ## Claims -/

theorem lookupA_alistSet_self {α : Type} (l : List (String × α)) (k : String) (v : α) :
    lookupA (alistSet l k v) k = some v := by
  induction l with
  | nil => simp [alistSet, lookupA]
  | cons hd t ih =>
    obtain ⟨k', w⟩ := hd
    by_cases h : k' = k <;> simp [alistSet, lookupA, h, ih]

theorem lookupA_alistSet_ne {α : Type} (l : List (String × α)) (k k' : String) (v : α)
    (h : k ≠ k') : lookupA (alistSet l k v) k' = lookupA l k' := by
  induction l with
  | nil => simp [alistSet, lookupA, h]
  | cons hd t ih =>
    obtain ⟨k₀, w⟩ := hd
    by_cases h0 : k₀ = k <;> simp [alistSet, lookupA, h0, h, ih]

/-- For an id with neither exit suffix, `_handle_tp_sl_completion` issues no
effects. -/
theorem handle_tp_sl_completion_entry_id (env : Env) (c X : String)
    (hT : pyEndsWith c "T" = false) (hS : pyEndsWith c "S" = false) :
    handle_tp_sl_completion env c X = [] := by
  unfold handle_tp_sl_completion
  rw [hT, hS]
  simp

/-- C2 (code_bug evidence): `_calculate_tp_offset` never applies the
`MIN_TP_PROFIT_PERCENTAGE` floor.  For cost basis 100, an explicit offset
of 0.1 and likewise an ATR-derived offset of 0.1 are both returned raw,
although both are below the documented floor `100 * 0.0045 = 0.45`. -/
theorem calculate_tp_offset_ignores_min_profit_floor :
    calculate_tp_offset
      { symbol := "BTCUSDT", side := "BUY", quantity := 1, price := 100,
        client_order_id := "V69_BTCUSD_B1234_1", position_side := "BOTH",
        tp_price_offset := some (1 / 10) } 100 = 1 / 10 ∧
    calculate_tp_offset
      { symbol := "BTCUSDT", side := "BUY", quantity := 1, price := 100,
        client_order_id := "V69_BTCUSD_B1234_1", position_side := "BOTH",
        atr := some (1 / 10) } 100 = 1 / 10 ∧
    (1 : Rat) / 10 < 100 * MIN_TP_PROFIT_PERCENTAGE := by
  refine ⟨rfl, ?_, by norm_num [MIN_TP_PROFIT_PERCENTAGE]⟩
  simp [calculate_tp_offset, DEFAULT_TP_MULTIPLIER]

/-- C8: the sweeper's timeout test.  An entry older than the per-strategy
timeout by 31 seconds is past the 30-second buffer and eligible; one
5 seconds short of the timeout is not.  The per-strategy lookup
(`get_strategy_timeout`, imported but absent from `config/settings.py`) is
abstracted as the `strategy_timeout` parameter; the claim quantifies over
the looked-up value `T`. -/
theorem is_order_timeout_boundary
    (strategy_timeout : Option String → Int) (sig : Option String)
    (T now : Int) (hT : strategy_timeout sig = T) :
    is_order_timeout strategy_timeout (some (now - (T * 60 + 31))) sig now = true ∧
    is_order_timeout strategy_timeout (some (now - (T * 60 - 5))) sig now = false := by
  simp only [is_order_timeout, hT, decide_eq_true_eq, decide_eq_false_iff_not]
  omega

/-- Witness for C8 at `T = 45`, `now = 10000`. -/
theorem is_order_timeout_boundary_witness :
    is_order_timeout (fun _ => 45) (some (10000 - (45 * 60 + 31))) none 10000 = true ∧
    is_order_timeout (fun _ => 45) (some (10000 - (45 * 60 - 5))) none 10000 = false :=
  is_order_timeout_boundary (fun _ => 45) none 45 10000 rfl

/-- C10: the processing guard is released on every exit path of
`handle_order_filled` (the early duplicate return, the normal path, and —
in the source — the exception path, all of which run the `finally`/`except`
discard).  Whenever the id is not already held by a concurrent invocation,
it is absent from `processing_orders` after the call returns; indeed the
whole processing set is restored exactly. -/
theorem handle_order_filled_releases_processing_guard
    (env : Env) (st : OMState) (cid symbol side order_type : String)
    (price quantity executed_qty : Rat) (position_side : String)
    (is_add_position : Bool)
    (hfree : st.processing.contains cid = false) :
    (handle_order_filled env st cid symbol side order_type price quantity
        executed_qty position_side is_add_position).1.processing = st.processing ∧
    (handle_order_filled env st cid symbol side order_type price quantity
        executed_qty position_side is_add_position).1.processing.contains cid = false := by
  unfold handle_order_filled
  rw [hfree]
  simp only [Bool.false_eq_true, if_false, List.erase_cons_head]
  refine ⟨trivial, ?_⟩
  exact hfree

/-- Witness for C10 on a one-record registry. -/
theorem handle_order_filled_releases_processing_guard_witness :
    (handle_order_filled
      { nowSec := 1700001234,
        placeOrderResp := fun p => some { orderId := 7, status := "NEW", price := p.price },
        cancelOrderResp := fun _ _ => some { orderId := 8, status := "CANCELED" },
        openOrders := [], orderStatusById := fun _ => none,
        cancelByIdResp := fun _ => none }
      ⟨[("V69_BTCUSD_B1234_1",
         { symbol := "BTCUSDT", side := "BUY", quantity := 1, price := some 100,
           otype := "LIMIT", status := "NEW", entry_time := 0 })], []⟩
      "V69_BTCUSD_B1234_1" "BTCUSDT" "BUY" "LIMIT" 100 1 1 "BOTH"
      false).1.processing.contains "V69_BTCUSD_B1234_1" = false := by
  exact (handle_order_filled_releases_processing_guard _ _ _ _ _ _ _ _ _ _ _ (by rfl)).2

/-- C3 (counterexample): the claimed universal average-cost formula fails on
the 5x sanity clamp.  For an existing position of 10 @ 100 and an incoming
add of 1 @ 130 (consistent reads, no prior record), the claim predicts
`((10*100 + 1*130)/11, 11, true)` but the code clamps to `(115, 2, true)`. -/
theorem calculate_average_cost_clamp_counterexample :
    (calculate_average_cost_and_quantity
        [("BTCUSDT", ⟨10, 100⟩)] [("BTCUSDT", ⟨10, 100⟩)] 1000 ⟨[]⟩
        "BTCUSDT" 130 1).1 = ⟨115, 2, true⟩ ∧
    ¬ ((calculate_average_cost_and_quantity
        [("BTCUSDT", ⟨10, 100⟩)] [("BTCUSDT", ⟨10, 100⟩)] 1000 ⟨[]⟩
        "BTCUSDT" 130 1).1 =
      ⟨(10 * 100 + 1 * 130) / (10 + 1), 10 + 1, true⟩) := by
  constructor
  · norm_num [calculate_average_cost_and_quantity, lookupA]
  · norm_num [calculate_average_cost_and_quantity, lookupA]

/-- C3 (amended): the weighted-average formula holds whenever the two reads
agree, there is no previously recorded quantity for the symbol (so the
doubling heuristic is quiescent), the incoming quantity is positive, and
the combined quantity stays within the code's 5x-of-incoming sanity bound.
Under these conditions the result is
`((Q0*P0 + Q1*P1)/(Q0+Q1), Q0+Q1, true)` with `Q0 = |positionAmt|`. -/
theorem calculate_average_cost_weighted_mean
    (fq sq : List (String × PosInfo)) (nowSec : Nat) (pm : PMState)
    (symbol : String) (pos : PosInfo) (P1 Q1 : Rat)
    (hf : lookupA fq symbol = some pos)
    (hs : lookupA sq symbol = some pos)
    (hlast : lookupA pm.last_query_positions symbol = none)
    (hq1 : 0 < Q1)
    (hclamp : |pos.positionAmt| + Q1 ≤ Q1 * 5) :
    (calculate_average_cost_and_quantity fq sq nowSec pm symbol P1 Q1).1 =
      ⟨(|pos.positionAmt| * pos.entryPrice + Q1 * P1) / (|pos.positionAmt| + Q1),
       |pos.positionAmt| + Q1, true⟩ := by
  have hpos : (0 : Rat) < |pos.positionAmt| + Q1 :=
    add_pos_of_nonneg_of_pos (abs_nonneg _) hq1
  have h1 : ¬ ((1 : Rat) / 1000 < |pos.positionAmt| - |pos.positionAmt|) := by
    rw [sub_self]
    norm_num
  unfold calculate_average_cost_and_quantity
  simp only [hf, hs, hlast, sub_self, abs_zero]
  have h0 : ¬ ((1 : Rat) / 1000 < 0) := by norm_num
  simp only [h0, if_false, if_neg (not_lt.mpr hclamp), if_neg hpos.ne']

/-- Witness for C3 (amended) at the spec's example: position 2 @ 100, add
1 @ 130, giving (110, 3, true). -/
theorem calculate_average_cost_weighted_mean_witness :
    (calculate_average_cost_and_quantity
        [("BTCUSDT", ⟨2, 100⟩)] [("BTCUSDT", ⟨2, 100⟩)] 1000 ⟨[]⟩
        "BTCUSDT" 130 1).1 = ⟨110, 3, true⟩ := by
  have h := calculate_average_cost_weighted_mean
    [("BTCUSDT", (⟨2, 100⟩ : PosInfo))] [("BTCUSDT", ⟨2, 100⟩)] 1000 ⟨[]⟩
    "BTCUSDT" ⟨2, 100⟩ 130 1 (by decide) (by decide) (by decide)
    (by norm_num) (by norm_num)
  rw [h]
  norm_num

/-- C9 (amended): when the two position reads disagree by more than the
0.001 tolerance, the computation does not fail: it returns `ok = true` and
proceeds with the smaller of the two reported quantities — provided no
previously recorded quantity triggers the short-window doubling override
(see the counterexample) and the combined total respects the 5x-of-incoming
sanity bound. -/
theorem calculate_average_cost_conservative_on_mismatch
    (fq sq : List (String × PosInfo)) (nowSec : Nat) (pm : PMState)
    (symbol : String) (p1 p2 : PosInfo) (P1 Q1 : Rat)
    (hf : lookupA fq symbol = some p1)
    (hs : lookupA sq symbol = some p2)
    (hmis : 1 / 1000 < abs (|p1.positionAmt| - |p2.positionAmt|))
    (hlast : lookupA pm.last_query_positions symbol = none)
    (hq1 : 0 < Q1)
    (hclamp : min |p1.positionAmt| |p2.positionAmt| + Q1 ≤ Q1 * 5) :
    (calculate_average_cost_and_quantity fq sq nowSec pm symbol P1 Q1).1 =
      ⟨(min |p1.positionAmt| |p2.positionAmt| * p2.entryPrice + Q1 * P1) /
          (min |p1.positionAmt| |p2.positionAmt| + Q1),
       min |p1.positionAmt| |p2.positionAmt| + Q1, true⟩ := by
  have hpos : (0 : Rat) < min |p1.positionAmt| |p2.positionAmt| + Q1 :=
    add_pos_of_nonneg_of_pos (le_min (abs_nonneg _) (abs_nonneg _)) hq1
  unfold calculate_average_cost_and_quantity
  simp only [hf, hs, hlast, if_pos hmis, if_neg (not_lt.mpr hclamp), if_neg hpos.ne']

/-- C9 (counterexample): with a previously recorded quantity on file, the
short-window doubling heuristic can override the conservative minimum.
Reads of 5 and 3.9 disagree (min 3.9), but a prior record of 1 taken 100
seconds earlier triggers the override (3.9 > 1·1.8 and 3.9 > 2·1), so the
computation proceeds with 1+1 = 2 — not the smaller read — returning
(110, 3, true) instead of the min-based prediction. -/
theorem calculate_average_cost_mismatch_override_counterexample :
    (calculate_average_cost_and_quantity
        [("BTCUSDT", ⟨5, 100⟩)] [("BTCUSDT", ⟨39 / 10, 100⟩)] 1000
        ⟨[("BTCUSDT", (1, 900))]⟩ "BTCUSDT" 130 1).1 = ⟨110, 3, true⟩ ∧
    ¬ ((calculate_average_cost_and_quantity
        [("BTCUSDT", ⟨5, 100⟩)] [("BTCUSDT", ⟨39 / 10, 100⟩)] 1000
        ⟨[("BTCUSDT", (1, 900))]⟩ "BTCUSDT" 130 1).1 =
      ⟨(39 / 10 * 100 + 1 * 130) / (39 / 10 + 1), 39 / 10 + 1, true⟩) := by
  constructor
  · norm_num [calculate_average_cost_and_quantity, lookupA, alistSet,
      abs_of_nonneg, inf_eq_min, min_def]
  · norm_num [calculate_average_cost_and_quantity, lookupA, alistSet,
      abs_of_nonneg, inf_eq_min, min_def]

/-- Witness for C9 (amended): reads of 5 and 3 disagree; the computation
proceeds with 3 and returns ((3*100 + 1*130)/4, 4, true) = (107.5, 4, true). -/
theorem calculate_average_cost_conservative_on_mismatch_witness :
    (calculate_average_cost_and_quantity
        [("BTCUSDT", ⟨5, 100⟩)] [("BTCUSDT", ⟨3, 100⟩)] 1000 ⟨[]⟩
        "BTCUSDT" 130 1).1 = ⟨215 / 2, 4, true⟩ := by
  have h := calculate_average_cost_conservative_on_mismatch
    [("BTCUSDT", (⟨5, 100⟩ : PosInfo))] [("BTCUSDT", ⟨3, 100⟩)] 1000 ⟨[]⟩
    "BTCUSDT" ⟨5, 100⟩ ⟨3, 100⟩ 130 1 (by decide) (by decide)
    (by norm_num) (by decide) (by norm_num) (by norm_num)
  rw [h]
  norm_num

/-- C7: a FILLED entry event (no T/S suffix) whose client order id lacks
the `V69_` namespace prefix is rejected outright: the stream handler
neither invokes the fill handler nor issues any effect, and the state is
untouched. -/
theorem foreign_filled_entry_rejected
    (env : Env) (st : OMState) (ev : WsOrderData)
    (hX : ev.X = "FILLED")
    (hT : pyEndsWith ev.c "T" = false)
    (hS : pyEndsWith ev.c "S" = false)
    (hV : pyStartsWith ev.c "V69_" = false) :
    on_message env st ev = (st, []) := by
  have hcomp := handle_tp_sl_completion_entry_id env ev.c ev.X hT hS
  rw [hX] at hcomp
  unfold on_message
  rcases hsel : select_price ev.ap ev.L ev.p with u | chosen
  · rfl
  · simp [hX, hT, hS, hV, hcomp]

/-- Witness for C7 on a concrete foreign FILLED event. -/
theorem foreign_filled_entry_rejected_witness :
    on_message envOk stNew evForeign = (stNew, []) :=
  foreign_filled_entry_rejected envOk stNew evForeign rfl (by rfl) (by rfl) (by rfl)

/-- C6: (a) for numeric price fields the fill price is chosen with the
priority average-fill-price (when positive) over last-trade-price (when
positive) over limit price; (b) a FILLED entry event whose selected price
is invalid — selection raised, empty, non-numeric, or non-positive — makes
the stream handler abort fill handling: no call into the fill handler and
no order placement occurs. -/
theorem fill_price_priority_and_invalid_abort :
    (∀ (a l : Rat) (P : PyStr),
        select_price (.num a) (.num l) P =
          .ok (if 0 < a then .num a else if 0 < l then .num l else P)) ∧
    (∀ (env : Env) (st : OMState) (ev : WsOrderData),
        ev.X = "FILLED" → pyEndsWith ev.c "T" = false →
        pyEndsWith ev.c "S" = false →
        chosenPriceInvalid (select_price ev.ap ev.L ev.p) = true →
        ((on_message env st ev).2.all
          (fun e => !e.isFillInvoke && !e.isPlace)) = true) := by
  constructor
  · intro a l P
    by_cases ha : 0 < a
    · simp [select_price, ha]
    · by_cases hl : 0 < l <;> simp [select_price, ha, hl]
  · intro env st ev hX hT hS hinv
    have hcomp := handle_tp_sl_completion_entry_id env ev.c ev.X hT hS
    rw [hX] at hcomp
    unfold on_message
    rcases hsel : select_price ev.ap ev.L ev.p with u | chosen
    · simp
    · rw [hsel] at hinv
      by_cases hV : pyStartsWith ev.c "V69_"
      · cases chosen with
        | empty => simp [hX, hT, hS, hV, hcomp]
        | nonNumeric => simp [hX, hT, hS, hV, hcomp]
        | num v =>
          have hv : v ≤ 0 := by simpa [chosenPriceInvalid] using hinv
          simp [hX, hT, hS, hV, hcomp, hv]
      · simp [hX, hT, hS, hV, hcomp]

/-- Witness for C6: selection priority at (2, 0, 7) and the abort at a
concrete all-zero-price FILLED entry event. -/
theorem fill_price_priority_and_invalid_abort_witness :
    select_price (.num 2) (.num 0) (.num 7) = .ok (if (0 : Rat) < 2 then .num 2
      else if (0 : Rat) < 0 then .num 0 else .num 7) ∧
    ((on_message envOk stNew evZeroPrice).2.all
      (fun e => !e.isFillInvoke && !e.isPlace)) = true := by
  constructor
  · exact fill_price_priority_and_invalid_abort.1 2 0 (.num 7)
  · exact fill_price_priority_and_invalid_abort.2 envOk stNew evZeroPrice
      rfl (by rfl) (by rfl) (by rfl)

/-- C5 (counterexample): `handle_add_position_order` issues its gateway
placement without ever writing a registry record: on a concrete add-signal
the whole trace is a single `placeOrder`, with no PENDING (indeed no)
registry write before it. -/
theorem add_position_no_pending_before_gateway :
    (handle_add_position_order envOk ⟨[], []⟩ sigLimit (5 / 100)).2.2 =
      [Effect.placeOrder
        { symbol := "BTCUSDT", side := "BUY", order_type := "LIMIT",
          quantity := 1, position_side := "BOTH",
          client_order_id := some "V69_BTCUSD_B1234_1",
          price := some 100, time_in_force := some "GTC" }] := by
  rfl

/-- C5 (amended): for every new-position submission, the PENDING registry
record is written before the gateway's placeOrder call — the trace is
exactly the PENDING write followed by one placement carrying the generated
client order id.  The add-position handler does not pre-register (see the
counterexample). -/
theorem new_position_pending_written_before_gateway
    (env : Env) (st : OMState) (sig : Signal) (tp_percentage : Rat)
    (strat : String) (hstrat : sig.strategy_name = some strat) :
    ∃ p : OrderParams,
      (handle_new_position_order env st sig tp_percentage).2.2 =
        [Effect.registryWrite
          (generate_order_id strat sig.symbol sig.side env.nowSec 1) "PENDING",
         Effect.placeOrder p] ∧
      p.client_order_id =
        some (generate_order_id strat sig.symbol sig.side env.nowSec 1) := by
  unfold handle_new_position_order
  rw [hstrat]
  exact ⟨_, rfl, rfl⟩

/-- Witness for C5 (amended) on a concrete limit signal. -/
theorem new_position_pending_written_before_gateway_witness :
    ∃ p : OrderParams,
      (handle_new_position_order envOk ⟨[], []⟩ sigLimit (5 / 100)).2.2 =
        [Effect.registryWrite
          (generate_order_id "V69master" "BTCUSDT" "BUY" 1700001234 1) "PENDING",
         Effect.placeOrder p] ∧
      p.client_order_id =
        some (generate_order_id "V69master" "BTCUSDT" "BUY" 1700001234 1) :=
  new_position_pending_written_before_gateway envOk ⟨[], []⟩ sigLimit (5 / 100)
    "V69master" rfl

/-- C4 (counterexample): when the gateway reports the stop-loss
cancellation as failed (order already gone), `handle_tp_filled` still sets
`TP_FILLED` and attempts the cancellation, but the sibling's `sl_placed`
flag stays `true` and no `canceled-by-sibling` mark is set — the claim's
"the sibling's placed flag becomes false" is false on this input. -/
theorem tp_fill_cancel_failure_keeps_sibling_flag :
    (lookupA (handle_tp_filled envCancelFail [("E1", recFilledWithExits)]
        "V69_BTCUSD_B1234_1_01234T").1 "E1").map
        (fun r => (r.status, r.sl_placed, r.sl_cancelled_by_tp)) =
      some ("TP_FILLED", true, false) ∧
    (handle_tp_filled envCancelFail [("E1", recFilledWithExits)]
        "V69_BTCUSD_B1234_1_01234T").2 =
      [Effect.recordResult "E1",
       Effect.cancelOrder "BTCUSDT" "V69_BTCUSD_B1234_1_01234S"] := by
  constructor
  · rfl
  · rfl

/-- C4 (amended): on a take-profit fill whose owning entry carries a
stop-loss back-reference, the entry becomes `TP_FILLED` and a cancellation
of the sibling stop-loss is attempted; the sibling's placed flag becomes
false (with the canceled-by-sibling mark) exactly when the gateway
confirms the cancellation, while a failed cancellation (order already
gone) is only logged — the handler continues without error but leaves the
flag unchanged.  Symmetrically for a stop-loss fill and its take-profit
sibling. -/
theorem tp_sl_fill_sibling_cancellation
    (env : Env) (os : List (String × OrderRec))
    (tpid slid oidT oidS : String) (rT rS : OrderRec) (s t : String)
    (hT : os.find? (tpSiblingMatch tpid) = some (oidT, rT))
    (hsT : rT.sl_client_id = some s) (hsne : ¬ s = "")
    (hS : os.find? (slSiblingMatch slid) = some (oidS, rS))
    (htS : rS.tp_client_id = some t) (htne : ¬ t = "") :
    ((lookupA (handle_tp_filled env os tpid).1 oidT).map OrderRec.status =
        some "TP_FILLED" ∧
      Effect.cancelOrder rT.symbol s ∈ (handle_tp_filled env os tpid).2 ∧
      (lookupA (handle_tp_filled env os tpid).1 oidT).map OrderRec.sl_placed =
        some (if (env.cancelOrderResp rT.symbol s).isSome then false
              else rT.sl_placed)) ∧
    ((lookupA (handle_sl_filled env os slid).1 oidS).map OrderRec.status =
        some "SL_FILLED" ∧
      Effect.cancelOrder rS.symbol t ∈ (handle_sl_filled env os slid).2 ∧
      (lookupA (handle_sl_filled env os slid).1 oidS).map OrderRec.tp_placed =
        some (if (env.cancelOrderResp rS.symbol t).isSome then false
              else rS.tp_placed)) := by
  constructor
  · unfold handle_tp_filled
    simp only [hT, hsT, if_neg hsne]
    rcases hres : env.cancelOrderResp rT.symbol s with _ | v <;>
      simp [lookupA_alistSet_self, hres]
  · unfold handle_sl_filled
    simp only [hS, htS, if_neg htne]
    rcases hres : env.cancelOrderResp rS.symbol t with _ | v <;>
      simp [lookupA_alistSet_self, hres]

/-- Witness for C4 (amended) on a registry with one filled entry and both
exits, against a succeeding gateway: both flags clear. -/
theorem tp_sl_fill_sibling_cancellation_witness :
    ((lookupA (handle_tp_filled envOk [("E1", recFilledWithExits)]
        "V69_BTCUSD_B1234_1_01234T").1 "E1").map OrderRec.status =
        some "TP_FILLED" ∧
      Effect.cancelOrder recFilledWithExits.symbol "V69_BTCUSD_B1234_1_01234S" ∈
        (handle_tp_filled envOk [("E1", recFilledWithExits)]
          "V69_BTCUSD_B1234_1_01234T").2 ∧
      (lookupA (handle_tp_filled envOk [("E1", recFilledWithExits)]
          "V69_BTCUSD_B1234_1_01234T").1 "E1").map OrderRec.sl_placed =
        some (if (envOk.cancelOrderResp recFilledWithExits.symbol
            "V69_BTCUSD_B1234_1_01234S").isSome then false
          else recFilledWithExits.sl_placed)) ∧
    ((lookupA (handle_sl_filled envOk [("E1", recFilledWithExits)]
        "V69_BTCUSD_B1234_1_01234S").1 "E1").map OrderRec.status =
        some "SL_FILLED" ∧
      Effect.cancelOrder recFilledWithExits.symbol "V69_BTCUSD_B1234_1_01234T" ∈
        (handle_sl_filled envOk [("E1", recFilledWithExits)]
          "V69_BTCUSD_B1234_1_01234S").2 ∧
      (lookupA (handle_sl_filled envOk [("E1", recFilledWithExits)]
          "V69_BTCUSD_B1234_1_01234S").1 "E1").map OrderRec.tp_placed =
        some (if (envOk.cancelOrderResp recFilledWithExits.symbol
            "V69_BTCUSD_B1234_1_01234T").isSome then false
          else recFilledWithExits.tp_placed)) := by
  exact tp_sl_fill_sibling_cancellation envOk [("E1", recFilledWithExits)]
    "V69_BTCUSD_B1234_1_01234T" "V69_BTCUSD_B1234_1_01234S" "E1" "E1"
    recFilledWithExits recFilledWithExits
    "V69_BTCUSD_B1234_1_01234S" "V69_BTCUSD_B1234_1_01234T"
    (by rfl) (by rfl) (by simp) (by rfl) (by rfl) (by simp)

/-- A generated take-profit id is never the entry id itself (it is strictly
longer). -/
theorem generate_tp_order_id_ne (now : Nat) (cid : String) :
    ¬ generate_tp_order_id now cid = cid := by
  intro h
  have hlen := congrArg String.length h
  simp only [generate_tp_order_id, String.length_append] at hlen
  have h1 : "_".length = 1 := rfl
  have h2 : "T".length = 1 := rfl
  omega

/-- A generated stop-loss id is never the entry id itself. -/
theorem generate_sl_order_id_ne (now : Nat) (cid : String) :
    ¬ generate_sl_order_id now cid = cid := by
  intro h
  have hlen := congrArg String.length h
  simp only [generate_sl_order_id, String.length_append] at hlen
  have h1 : "_".length = 1 := rfl
  have h2 : "S".length = 1 := rfl
  omega

/-- Shape of a successful first `place_tp_order` run (no prior TP, no prior
SL back-reference, fresh generated exit ids, gateway succeeding, not an
add): exactly one LIMIT take-profit and one STOP_MARKET stop-loss are
placed, and the record ends `tp_placed` with its status unchanged. -/
theorem place_tp_order_success_shape
    (env : Env) (os : List (String × OrderRec)) (entry : EntryOrder) (r : OrderRec)
    (hrec : lookupA os entry.client_order_id = some r)
    (htp : r.tp_placed = false)
    (hsl : r.sl_client_id = none)
    (hTpFresh : lookupA os (generate_tp_order_id env.nowSec entry.client_order_id) = none)
    (hSlFresh : lookupA os (generate_sl_order_id env.nowSec entry.client_order_id) = none)
    (hplace : ∀ p, (env.placeOrderResp p).isSome = true) :
    (place_tp_order env os entry false).2.countP (fun e => Effect.isTpPlace e) = 1 ∧
    (place_tp_order env os entry false).2.countP (fun e => Effect.isSlPlace e) = 1 ∧
    ∃ r2 : OrderRec,
      lookupA (place_tp_order env os entry false).1 entry.client_order_id = some r2 ∧
      r2.tp_placed = true ∧ r2.status = r.status := by
  have hSlFresh2 : ∀ v : OrderRec,
      lookupA (alistSet os entry.client_order_id v)
        (generate_sl_order_id env.nowSec entry.client_order_id) = none := by
    intro v
    rw [lookupA_alistSet_ne _ _ _ _
      (fun h => generate_sl_order_id_ne env.nowSec entry.client_order_id h.symm)]
    exact hSlFresh
  unfold place_tp_order place_sl_order create_order
  simp [hrec, htp, hsl, hplace, hTpFresh, hSlFresh2, lookupA_alistSet_self,
    truthyStr, List.countP_cons, Effect.isTpPlace, Effect.isSlPlace,
    ENABLE_STOP_LOSS]

/-- C1: idempotent fill handling.  From a registry record with no
take-profit placed yet and no stop-loss back-reference, with the gateway
succeeding, the first `handle_order_filled` places exactly one take-profit
and one stop-loss; the second invocation for the same id is a pure no-op —
it returns the state unchanged (so the registry record is untouched) and
places nothing, hence across the two calls exactly one take-profit and one
stop-loss are placed in total. -/
theorem handle_order_filled_idempotent
    (env : Env) (st : OMState)
    (cid symbol side order_type position_side : String)
    (price quantity executed_qty : Rat) (r : OrderRec)
    (hproc : st.processing.contains cid = false)
    (hrec : lookupA st.orders cid = some r)
    (htp : r.tp_placed = false)
    (hsl : r.sl_client_id = none)
    (hTpFresh : lookupA st.orders (generate_tp_order_id env.nowSec cid) = none)
    (hSlFresh : lookupA st.orders (generate_sl_order_id env.nowSec cid) = none)
    (hplace : ∀ p, (env.placeOrderResp p).isSome = true) :
    (handle_order_filled env st cid symbol side order_type price quantity
        executed_qty position_side false).2.countP (fun e => Effect.isTpPlace e) = 1 ∧
    (handle_order_filled env st cid symbol side order_type price quantity
        executed_qty position_side false).2.countP (fun e => Effect.isSlPlace e) = 1 ∧
    handle_order_filled env
        (handle_order_filled env st cid symbol side order_type price quantity
          executed_qty position_side false).1
        cid symbol side order_type price quantity executed_qty position_side false =
      ((handle_order_filled env st cid symbol side order_type price quantity
          executed_qty position_side false).1, []) := by
  have hcore :
      handle_order_filled_core env st.orders cid symbol side order_type price
        quantity executed_qty position_side false =
      place_tp_order env
        (alistSet st.orders cid
          { r with status := "FILLED", filled_amount := some executed_qty,
                   fill_time := some env.nowSec, actual_fill_price := some price,
                   is_add_position := false })
        { symbol := symbol, side := side, quantity := quantity, price := price,
          client_order_id := cid, position_side := position_side,
          tp_price_offset := r.tp_price_offset, atr := r.atr,
          tp_multiplier := some r.tp_multiplier } false := by
    unfold handle_order_filled_core
    simp [hrec, htp]
  obtain ⟨hc1, hc2, r2, hr2, hr2tp, hr2st⟩ :=
    place_tp_order_success_shape env
      (alistSet st.orders cid
        { r with status := "FILLED", filled_amount := some executed_qty,
                 fill_time := some env.nowSec, actual_fill_price := some price,
                 is_add_position := false })
      { symbol := symbol, side := side, quantity := quantity, price := price,
        client_order_id := cid, position_side := position_side,
        tp_price_offset := r.tp_price_offset, atr := r.atr,
        tp_multiplier := some r.tp_multiplier }
      { r with status := "FILLED", filled_amount := some executed_qty,
               fill_time := some env.nowSec, actual_fill_price := some price,
               is_add_position := false }
      (lookupA_alistSet_self _ _ _) htp hsl
      (by
        rw [lookupA_alistSet_ne _ _ _ _
          (fun h => generate_tp_order_id_ne env.nowSec cid h.symm)]
        exact hTpFresh)
      (by
        rw [lookupA_alistSet_ne _ _ _ _
          (fun h => generate_sl_order_id_ne env.nowSec cid h.symm)]
        exact hSlFresh)
      hplace
  have hfirst :
      handle_order_filled env st cid symbol side order_type price quantity
        executed_qty position_side false =
      (⟨(place_tp_order env
          (alistSet st.orders cid
            { r with status := "FILLED", filled_amount := some executed_qty,
                     fill_time := some env.nowSec, actual_fill_price := some price,
                     is_add_position := false })
          { symbol := symbol, side := side, quantity := quantity, price := price,
            client_order_id := cid, position_side := position_side,
            tp_price_offset := r.tp_price_offset, atr := r.atr,
            tp_multiplier := some r.tp_multiplier } false).1, st.processing⟩,
       (place_tp_order env
          (alistSet st.orders cid
            { r with status := "FILLED", filled_amount := some executed_qty,
                     fill_time := some env.nowSec, actual_fill_price := some price,
                     is_add_position := false })
          { symbol := symbol, side := side, quantity := quantity, price := price,
            client_order_id := cid, position_side := position_side,
            tp_price_offset := r.tp_price_offset, atr := r.atr,
            tp_multiplier := some r.tp_multiplier } false).2) := by
    unfold handle_order_filled
    rw [hproc]
    simp [hcore, List.erase_cons_head]
  refine ⟨by rw [hfirst]; exact hc1, by rw [hfirst]; exact hc2, ?_⟩
  rw [hfirst]
  unfold handle_order_filled
  rw [hproc]
  simp only [Bool.false_eq_true, if_false]
  unfold handle_order_filled_core
  simp only [hr2]
  simp [hr2st, hr2tp, List.erase_cons_head]

/-- Witness for C1 on a concrete one-record registry with a succeeding
gateway. -/
theorem handle_order_filled_idempotent_witness :
    (handle_order_filled envOk stNew "V69_BTCUSD_B1234_1" "BTCUSDT" "BUY" "LIMIT"
        100 1 1 "BOTH" false).2.countP (fun e => Effect.isTpPlace e) = 1 ∧
    (handle_order_filled envOk stNew "V69_BTCUSD_B1234_1" "BTCUSDT" "BUY" "LIMIT"
        100 1 1 "BOTH" false).2.countP (fun e => Effect.isSlPlace e) = 1 ∧
    handle_order_filled envOk
        (handle_order_filled envOk stNew "V69_BTCUSD_B1234_1" "BTCUSDT" "BUY" "LIMIT"
          100 1 1 "BOTH" false).1
        "V69_BTCUSD_B1234_1" "BTCUSDT" "BUY" "LIMIT" 100 1 1 "BOTH" false =
      ((handle_order_filled envOk stNew "V69_BTCUSD_B1234_1" "BTCUSDT" "BUY" "LIMIT"
          100 1 1 "BOTH" false).1, []) := by
  exact handle_order_filled_idempotent envOk stNew "V69_BTCUSD_B1234_1" "BTCUSDT"
    "BUY" "LIMIT" "BOTH" 100 1 1 recNew (by rfl) (by rfl) rfl rfl (by rfl) (by rfl)
    (fun p => rfl)

end Trading
